import Mathlib

/-!
Verification of the penetration-depth gridding pipeline of
`mtpy/imaging/penetration_depth_3d_profile.py`.

The Python module is shallowly embedded below.  Geographic coordinates,
frequencies, periods and resistivity entries are modelled as rationals;
quantities produced through `sqrt` (the penetration depths) live in `ℝ`.
The `NaN` used by the raster as a no-data sentinel is modelled as
`Option.none`, a raised Python exception or `sys.exit` as the `Except`
error branch, and plotting calls (pure presentation) are dropped.
-/

set_option autoImplicit false

namespace Mtpy

/-- Python 2 `round`: round half away from zero (the module is Python 2
source, cf. the `print pair` statement form).  `int(round(x))` truncates an
already integral float, so the composition is exactly this integer. -/
def pyround (q : ℚ) : ℤ :=
  if 0 ≤ q then ⌊q + 1/2⌋ else ⌈q - 1/2⌉

/-- Embeds `get_index(lat, lon, minlat, minlon, pixelsize, offset=1)`:
`ix = int(round((lon - minlon)/pixelsize))`, `iy = int(round((lat - minlat)/pixelsize))`,
returning `(ix + offset, iy + offset)`. -/
def get_index (lat lon minlat minlon pixelsize : ℚ) (offset : ℤ := 1) : ℤ × ℤ :=
  (pyround ((lon - minlon) / pixelsize) + offset,
   pyround ((lat - minlat) / pixelsize) + offset)

/-- Embeds `get_bounding_box(latlons)`.  Python `min`/`max` over a non-empty
list fold from the first element; over an empty list they raise
`ValueError`, modelled as `none`. -/
def get_bounding_box : List (ℚ × ℚ) → Option ((ℚ × ℚ) × (ℚ × ℚ))
  | [] => none
  | p :: rest =>
    let minlat := (rest.map Prod.fst).foldl min p.1
    let maxlat := (rest.map Prod.fst).foldl max p.1
    let minlon := (rest.map Prod.snd).foldl min p.2
    let maxlon := (rest.map Prod.snd).foldl max p.2
    some ((minlon, maxlon), (minlat, maxlat))

/-- The loop body of `check_period_values`: scan the list and return `False`
at the first element different from the reference value `p0`. -/
def checkLoop (p0 : ℚ) : List ℚ → Bool
  | [] => true
  | per :: rest => if per ≠ p0 then false else checkLoop p0 rest

/-- Embeds `check_period_values(period_list)`.  The code reads
`period_list[0]` first, so an empty list raises `IndexError`, modelled as
`none`; otherwise the whole list is compared against the first value with
exact equality. -/
def check_period_values (period_list : List ℚ) : Option Bool :=
  match period_list with
  | [] => none
  | p0 :: _ => some (checkLoop p0 period_list)

/-- The ways the pipeline can fail: the explicit `raise Exception` on an
out-of-range period index, `sys.exit(code)` on an unsupported selector, the
`IndexError` raised by `period_list[0]` on an empty batch, and the
`ValueError` raised by `min()`/`max()` on an empty coordinate list. -/
inductive Err where
  | indexOutOfRange
  | sysExit (code : ℕ)
  | listIndexError
  | valueError
  | periodMismatch
deriving DecidableEq

/-- The impedance-tensor object `zeta = mt_obj.Z` of one station: the
frequency list, the real resistivity entries `zeta.resistivity[i, r, c]`,
and the determinant track `zeta.det[0][i]`. -/
structure ZTensor where
  freq : List ℚ
  resistivity : ℕ → Fin 2 → Fin 2 → ℚ
  det0 : ℕ → ℚ

/-- One parsed station record (`mt_obj`): name, latitude, longitude and
its impedance tensor. -/
structure MTrec where
  station : String
  lat : ℚ
  lon : ℚ
  Z : ZTensor

/-- Embeds `scale_param = np.sqrt(1.0 / (2.0 * np.pi * 4 * np.pi * 10 ** (-7)))`. -/
noncomputable def scale_param : ℝ :=
  Real.sqrt (1 / (2 * Real.pi * 4 * Real.pi * (10 : ℝ) ^ (-7 : ℤ)))

/-- Embeds `per = 1.0 / zeta.freq[per_index]` (read under the guard
`per_index < len(zeta.freq)`; the default value of `getD` is never used
there). -/
def stationPer (i : ℕ) (m : MTrec) : ℚ :=
  1 / m.Z.freq.getD i 0

/-- The selector string for the xy component. -/
def zxyStr : String := "zxy"

/-- The selector string for the yx component. -/
def zyxStr : String := "zyx"

/-- The selector string for the determinant component. -/
def detStr : String := "det"

/-- The per-selector depth expression of `get_penetration_depth`:
`-scale_param * sqrt(resistivity[i,0,1] * per)` for `zxy`,
`-scale_param * sqrt(resistivity[i,1,0] * per)` for `zyx`, and
`-scale_param * sqrt(0.2 * per * abs(det[0][i]) * per)` for `det`.
The final branch of the Python `if` chain does not produce a value
(`sys.exit`); the `0` default is never read, cf. `processStation`. -/
noncomputable def stationDepthVal (whichrho : String) (i : ℕ) (m : MTrec) : ℝ :=
  if whichrho = "zxy" then
    -(scale_param * Real.sqrt ((m.Z.resistivity i 0 1 : ℝ) * (stationPer i m : ℝ)))
  else if whichrho = "zyx" then
    -(scale_param * Real.sqrt ((m.Z.resistivity i 1 0 : ℝ) * (stationPer i m : ℝ)))
  else if whichrho = "det" then
    -(scale_param * Real.sqrt (0.2 * (stationPer i m : ℝ) * (|m.Z.det0 i| : ℚ) * (stationPer i m : ℝ)))
  else 0

/-- The loop body of `get_penetration_depth` for one station: check the
period index, then dispatch on `whichrho`, with `sys.exit(100)` on an
unknown selector.  Returns the appended `(station, period, depth, latlon)`
data. -/
noncomputable def processStation (i : ℕ) (whichrho : String) (m : MTrec) :
    Except Err (String × ℚ × ℝ × (ℚ × ℚ)) :=
  if m.Z.freq.length ≤ i then .error .indexOutOfRange
  else if whichrho = "zxy" then
    .ok (m.station, stationPer i m, stationDepthVal whichrho i m, (m.lat, m.lon))
  else if whichrho = "zyx" then
    .ok (m.station, stationPer i m, stationDepthVal whichrho i m, (m.lat, m.lon))
  else if whichrho = "det" then
    .ok (m.station, stationPer i m, stationDepthVal whichrho i m, (m.lat, m.lon))
  else .error (.sysExit 100)

/-- Embeds `get_penetration_depth(edi_file_list, per_index, whichrho)`:
loop over the stations accumulating four parallel lists, then call
`check_period_values(periods)` with the returned Boolean discarded (only
the `IndexError` it raises on an empty batch can escape). -/
noncomputable def get_penetration_depth (recs : List MTrec) (i : ℕ) (whichrho : String) :
    Except Err (List String × List ℚ × List ℝ × List (ℚ × ℚ)) :=
  match recs.mapM (processStation i whichrho) with
  | .error e => .error e
  | .ok results =>
    match check_period_values (results.map (fun r => r.2.1)) with
    | none => .error .listIndexError
    | some _ =>
      .ok (results.map (fun r => r.1), results.map (fun r => r.2.1),
           results.map (fun r => r.2.2.1), results.map (fun r => r.2.2.2))

/-- Embeds `pixelsize = 0.002` degrees. -/
def pixelsize : ℚ := 1 / 500

/-- Embeds `pad = 4`: the raster is made `pad` pixels bigger than `(ny, nx)`. -/
def pad : ℤ := 4

/-- The raster cell written for one station in the compositing loop:
`zdep[zdep.shape[0] - yi - 1, xi]` with `(xi, yi) = get_index(lat, lon,
minlat, minlon, pixelsize)` (default `offset = 1`), as `(row, column)`. -/
def compositeTarget (h : ℤ) (minlat minlon ps : ℚ) (latlon : ℚ × ℚ) : ℤ × ℤ :=
  (h - (get_index latlon.1 latlon.2 minlat minlon ps).2 - 1,
   (get_index latlon.1 latlon.2 minlat minlon ps).1)

/-- The `(row, column)` sample point handed to `scipy.interpolate.griddata`
for one station: `points[iter, 0] = zdep.shape[0] - j`, `points[iter, 1] = i`
with `(i, j) = get_index(lat, lon, minlat, minlon, pixelsize)`. -/
def interpPoint (h : ℤ) (minlat minlon ps : ℚ) (latlon : ℚ × ℚ) : ℤ × ℤ :=
  (h - (get_index latlon.1 latlon.2 minlat minlon ps).2,
   (get_index latlon.1 latlon.2 minlat minlon ps).1)

/-- One iteration of the compositing loop:
`zdep[zdep.shape[0] - yi - 1, xi] = np.abs(pendep[iter])`. -/
noncomputable def compositeStep (h : ℤ) (minlat minlon ps : ℚ)
    (g : ℤ × ℤ → Option ℝ) (s : (ℚ × ℚ) × ℝ) : ℤ × ℤ → Option ℝ :=
  fun c => if c = compositeTarget h minlat minlon ps s.1 then some |s.2| else g c

/-- The compositing loop over `enumerate(latlons)` paired with `pendep`,
starting from the all-`np.nan` raster (`zdep[:, :] = np.nan` right after
allocation, before any station is written). -/
noncomputable def compositeGrid (h : ℤ) (minlat minlon ps : ℚ)
    (samples : List ((ℚ × ℚ) × ℝ)) : ℤ × ℤ → Option ℝ :=
  samples.foldl (compositeStep h minlat minlon ps) (fun _ => none)

/-- The data that the plotting code hands to `matplotlib`/`scipy`: the
raster dimensions, the composited raster, and the scattered sample points
and values given to `griddata`. -/
structure PlotData where
  rows : ℤ
  cols : ℤ
  grid : ℤ × ℤ → Option ℝ
  points : List (ℤ × ℤ)
  values : List ℝ

/-- The gridding stage shared by `plot_latlon_depth_profile` and
`plot_gridded_profile` (the Python code duplicates it verbatim): bounding
box corner, `nx = int(np.ceil(xgrids/pixelsize))`, `ny` likewise, raster of
shape `(ny + pad, nx + pad)`, the compositing loop, and the `points`/
`values` arrays for `griddata` (`values[iter] = np.abs(pendep[iter])`). -/
noncomputable def buildPlotData (bbox : (ℚ × ℚ) × (ℚ × ℚ))
    (pendep : List ℝ) (latlons : List (ℚ × ℚ)) : PlotData :=
  let minlat := bbox.2.1
  let minlon := bbox.1.1
  let nx : ℤ := ⌈(bbox.1.2 - bbox.1.1) / pixelsize⌉
  let ny : ℤ := ⌈(bbox.2.2 - bbox.2.1) / pixelsize⌉
  { rows := ny + pad
    cols := nx + pad
    grid := compositeGrid (ny + pad) minlat minlon pixelsize (latlons.zip pendep)
    points := latlons.map (interpPoint (ny + pad) minlat minlon pixelsize)
    values := pendep.map (fun d => |d|) }

/-- Embeds `plot_latlon_depth_profile(edi_dir, period_index, zcomponent)`:
extract, gate on `check_period_values(periods) is False` (raising on a
mismatch), then grid and hand off to the plotting collaborator. -/
noncomputable def plot_latlon_depth_profile (recs : List MTrec) (i : ℕ)
    (zcomponent : String) : Except Err PlotData :=
  match get_penetration_depth recs i zcomponent with
  | .error e => .error e
  | .ok (_, periods, pendep, latlons) =>
    if check_period_values periods = some false then .error .periodMismatch
    else
      match get_bounding_box latlons with
      | none => .error .valueError
      | some bbox => .ok (buildPlotData bbox pendep latlons)

/-- Embeds `plot_gridded_profile(edi_dir, period_index, zcomponent)`: same
as `plot_latlon_depth_profile` but with no period gate of its own — it goes
straight from the extractor to the bounding box and the grid. -/
noncomputable def plot_gridded_profile (recs : List MTrec) (i : ℕ)
    (zcomponent : String) : Except Err PlotData :=
  match get_penetration_depth recs i zcomponent with
  | .error e => .error e
  | .ok (_, _, pendep, latlons) =>
    match get_bounding_box latlons with
    | none => .error .valueError
    | some bbox => .ok (buildPlotData bbox pendep latlons)

/-- Embeds `get_penetration_depths_from_edi_file(edifile, rholist)` with the
default selector list containing only the determinant selector:
all periods `1.0/freqs` at once and the whole-array depth formulas.  The
Python `if` chain assigns for each selector present in `rholist`, so when
several are present the later assignment wins (`det` over `zyx` over
`zxy`); with none present the variable would be unbound, modelled by the
unused `[]` default (every call site uses the default selector list). -/
noncomputable def get_penetration_depths_from_edi_file (m : MTrec)
    (rholist : List String := [detStr]) : ℚ × ℚ × List ℚ × List ℝ :=
  let periods : List ℚ := m.Z.freq.map (fun f => 1 / f)
  let depths : List ℝ :=
    if detStr ∈ rholist then
      (List.range m.Z.freq.length).map (fun j =>
        scale_param * Real.sqrt (0.2 * (periods.getD j 0 : ℝ) * (|m.Z.det0 j| : ℚ) * (periods.getD j 0 : ℝ)))
    else if zyxStr ∈ rholist then
      (List.range m.Z.freq.length).map (fun j =>
        scale_param * Real.sqrt ((m.Z.resistivity j 1 0 : ℝ) * (periods.getD j 0 : ℝ)))
    else if zxyStr ∈ rholist then
      (List.range m.Z.freq.length).map (fun j =>
        scale_param * Real.sqrt ((m.Z.resistivity j 0 1 : ℝ) * (periods.getD j 0 : ℝ)))
    else []
  (m.lat, m.lon, periods, depths)

/-- The station loop of `create_csv_file`: the first station initialises
`PER_LIST0` and is always kept; a later station is kept only when its
period list has the same length and the same values (`(per == PER_LIST0).all()`,
i.e. list equality); otherwise it is logged and skipped while the loop
continues.  Rows are `(lat, lon, depths)`; the `%.2f` string formatting of
the depth column is presentation and is not modelled. -/
noncomputable def create_csv_rows :
    List MTrec → Option (List ℚ) → List (ℚ × ℚ × List ℝ) → List (ℚ × ℚ × List ℝ)
  | [], _, acc => acc
  | m :: rest, ref, acc =>
    let r := get_penetration_depths_from_edi_file m
    match ref with
    | none => create_csv_rows rest (some r.2.2.1) (acc ++ [(r.1, r.2.1, r.2.2.2)])
    | some p0 =>
      if r.2.2.1 = p0 then create_csv_rows rest (some p0) (acc ++ [(r.1, r.2.1, r.2.2.2)])
      else create_csv_rows rest (some p0) acc

/-- Embeds `create_csv_file(edi_dir, ...)` up to the rows written to the
CSV writer. -/
noncomputable def create_csv_file (recs : List MTrec) : List (ℚ × ℚ × List ℝ) :=
  create_csv_rows recs none []

/-- The exit status used for the usage error in the `__main__` block. -/
def usage_exit_code : ℕ := 1

/-- Observable outcomes of the `__main__` block. -/
inductive CliOutcome where
  | exitWith (code : ℕ)
  | runProfile (dir : String) (idxArg : String)
  | argvError
  | printedUsage
deriving DecidableEq

/-- Embeds the `__main__` block.  `argv` is `sys.argv` (program name
included).  When `len(sys.argv) < 2` it prints usage and exits 1; else when
`sys.argv[1]` is a directory it reads `sys.argv[2]` — raising `IndexError`
when absent, modelled as `argvError` — and runs the profile plot (the
`int()` conversion of the index argument is kept as the raw string); else
it prints a message and falls off the end (process status 0). -/
def cli_main (argv : List String) (isdir : String → Bool) : CliOutcome :=
  match argv with
  | [] => .exitWith usage_exit_code
  | [_] => .exitWith usage_exit_code
  | _ :: dir :: rest =>
    if isdir dir then
      match rest with
      | [] => .argvError
      | idx :: _ => .runProfile dir idx
    else .printedUsage

/-- An arbitrary selector string outside the supported set, used by a
witness. -/
def unsupportedSelector : String := "foo"

/-- A concrete station used by witnesses: one frequency `2` (period `1/2`). -/
def station0 : MTrec :=
  { station := "s0", lat := 1, lon := 2,
    Z := { freq := [2], resistivity := fun _ _ _ => 3, det0 := fun _ => 4 } }

/-- A concrete station used by witnesses: one frequency `1` (period `1`),
so `[station0, station1]` is a batch with mismatching periods. -/
def station1 : MTrec :=
  { station := "s1", lat := 5, lon := 6,
    Z := { freq := [1], resistivity := fun _ _ _ => 7, det0 := fun _ => 8 } }

lemma pyround_abs (q : ℚ) : |(pyround q : ℚ) - q| ≤ 1/2 := by
  unfold pyround
  split_ifs with h
  · rw [abs_le]
    constructor
    · have := Int.lt_floor_add_one (q + 1/2)
      linarith
    · have := Int.floor_le (q + 1/2)
      linarith
  · rw [abs_le]
    constructor
    · have := Int.le_ceil (q - 1/2)
      linarith
    · have := Int.ceil_lt_add_one (q - 1/2)
      linarith

lemma scale_param_nonneg : 0 ≤ scale_param := Real.sqrt_nonneg _

lemma abs_neg_scale_sqrt (x : ℝ) :
    |(-(scale_param * Real.sqrt x))| = scale_param * Real.sqrt x := by
  rw [abs_neg, abs_of_nonneg (mul_nonneg scale_param_nonneg (Real.sqrt_nonneg x))]

lemma stationDepthVal_zxy (i : ℕ) (m : MTrec) :
    stationDepthVal zxyStr i m =
      -(scale_param * Real.sqrt ((m.Z.resistivity i 0 1 : ℝ) * (stationPer i m : ℝ))) := rfl

lemma stationDepthVal_zyx (i : ℕ) (m : MTrec) :
    stationDepthVal zyxStr i m =
      -(scale_param * Real.sqrt ((m.Z.resistivity i 1 0 : ℝ) * (stationPer i m : ℝ))) := rfl

lemma stationDepthVal_det (i : ℕ) (m : MTrec) :
    stationDepthVal detStr i m =
      -(scale_param * Real.sqrt (0.2 * (stationPer i m : ℝ) * (|m.Z.det0 i| : ℚ) * (stationPer i m : ℝ))) := rfl

lemma processStation_ok (i : ℕ) (m : MTrec) (whichrho : String)
    (hlen : i < m.Z.freq.length)
    (hrho : whichrho = "zxy" ∨ whichrho = "zyx" ∨ whichrho = "det") :
    processStation i whichrho m =
      .ok (m.station, stationPer i m, stationDepthVal whichrho i m, (m.lat, m.lon)) := by
  rcases hrho with h | h | h <;> subst h <;>
    simp [processStation, Nat.not_le.mpr hlen]

lemma processStation_exit (i : ℕ) (m : MTrec) (whichrho : String)
    (hlen : i < m.Z.freq.length)
    (h1 : whichrho ≠ "zxy") (h2 : whichrho ≠ "zyx") (h3 : whichrho ≠ "det") :
    processStation i whichrho m = .error (.sysExit 100) := by
  simp [processStation, Nat.not_le.mpr hlen, h1, h2, h3]

lemma mapM_ok {β : Type} (f : MTrec → Except Err β) (g : MTrec → β)
    (l : List MTrec) (h : ∀ a ∈ l, f a = .ok (g a)) : l.mapM f = .ok (l.map g) := by
  induction l with
  | nil => rfl
  | cons a t ih =>
    rw [List.mapM_cons, h a (List.mem_cons_self a t),
      ih (fun b hb => h b (List.mem_cons_of_mem a hb))]
    rfl

lemma mapM_error_head {β : Type} (f : MTrec → Except Err β) (e : Err)
    (a : MTrec) (t : List MTrec) (h : f a = .error e) : (a :: t).mapM f = .error e := by
  rw [List.mapM_cons, h]
  rfl

lemma getPD_eval (recs : List MTrec) (i : ℕ) (whichrho : String)
    (hne : recs ≠ [])
    (hlen : ∀ m ∈ recs, i < m.Z.freq.length)
    (hrho : whichrho = "zxy" ∨ whichrho = "zyx" ∨ whichrho = "det") :
    get_penetration_depth recs i whichrho =
      .ok (recs.map (fun m => m.station), recs.map (stationPer i),
           recs.map (stationDepthVal whichrho i), recs.map (fun m => (m.lat, m.lon))) := by
  have hmap : recs.mapM (processStation i whichrho) =
      .ok (recs.map (fun m =>
        (m.station, stationPer i m, stationDepthVal whichrho i m, (m.lat, m.lon)))) :=
    mapM_ok _ _ recs (fun a ha => processStation_ok i a whichrho (hlen a ha) hrho)
  obtain ⟨r, rs, rfl⟩ := List.exists_cons_of_ne_nil hne
  simp only [get_penetration_depth, hmap]
  simp [check_period_values, List.map_map, Function.comp]

lemma foldl_min_le (l : List ℚ) : ∀ a : ℚ, l.foldl min a ≤ a := by
  induction l with
  | nil => intro a; exact le_refl a
  | cons b t ih => intro a; exact le_trans (ih (min a b)) (min_le_left a b)

lemma le_foldl_max (l : List ℚ) : ∀ a : ℚ, a ≤ l.foldl max a := by
  induction l with
  | nil => intro a; exact le_refl a
  | cons b t ih => intro a; exact le_trans (le_max_left a b) (ih (max a b))

lemma checkLoop_true_iff (p0 : ℚ) (l : List ℚ) :
    checkLoop p0 l = true ↔ ∀ x ∈ l, x = p0 := by
  induction l with
  | nil => simp [checkLoop]
  | cons a t ih =>
    by_cases ha : a = p0
    · simp [checkLoop, ha, ih]
    · simp [checkLoop, ha]

lemma compositeGrid_eq (h : ℤ) (la lo ps : ℚ)
    (samples : List ((ℚ × ℚ) × ℝ)) (c : ℤ × ℤ) :
    compositeGrid h la lo ps samples c =
      (samples.reverse.find? (fun s => decide (c = compositeTarget h la lo ps s.1))).map
        (fun s => |s.2|) := by
  induction samples using List.reverseRecOn with
  | nil => rfl
  | append_singleton xs s ih =>
    rw [compositeGrid, List.foldl_append, List.foldl_cons, List.foldl_nil]
    rcases Decidable.em (c = compositeTarget h la lo ps s.1) with hc | hc
    · rw [compositeStep, if_pos hc]
      rw [List.reverse_append, List.reverse_singleton, List.singleton_append,
        List.find?_cons_of_pos _ (by simpa using hc)]
      rfl
    · rw [compositeStep, if_neg hc]
      rw [List.reverse_append, List.reverse_singleton, List.singleton_append,
        List.find?_cons_of_neg _ (by simpa using hc)]
      exact ih

lemma create_csv_rows_some (rest : List MTrec) :
    ∀ (p0 : List ℚ) (acc : List (ℚ × ℚ × List ℝ)),
    create_csv_rows rest (some p0) acc =
      acc ++ (rest.filter (fun m =>
          decide ((get_penetration_depths_from_edi_file m).2.2.1 = p0))).map
        (fun m => ((get_penetration_depths_from_edi_file m).1,
          (get_penetration_depths_from_edi_file m).2.1,
          (get_penetration_depths_from_edi_file m).2.2.2)) := by
  induction rest with
  | nil => intro p0 acc; simp [create_csv_rows]
  | cons m t ih =>
    intro p0 acc
    by_cases hm : (get_penetration_depths_from_edi_file m).2.2.1 = p0
    · rw [create_csv_rows, if_pos hm, ih, List.filter_cons_of_pos (by simpa using hm)]
      simp
    · rw [create_csv_rows, if_neg hm, ih, List.filter_cons_of_neg (by simpa using hm)]

/-- C1: for every station whose frequency list is longer than `i` and every
selector in the supported set, `get_penetration_depth` returns normally with
`period = 1/frequency[i]`, and the depth computed for the station has
absolute value (the magnitude all callers take with `abs()`)
`scale_param * sqrt(resistivity[i,0,1] * period)` for `zxy`,
`scale_param * sqrt(resistivity[i,1,0] * period)` for `zyx`, and
`scale_param * sqrt(0.2 * period * abs(det_resistivity[i]) * period)` for
`det`, the raw stored value carrying a minus sign. -/
theorem C1_tensor_extractor_formulas (recs : List MTrec) (i : ℕ)
    (hne : recs ≠ []) (hlen : ∀ m ∈ recs, i < m.Z.freq.length)
    (whichrho : String)
    (hrho : whichrho = "zxy" ∨ whichrho = "zyx" ∨ whichrho = "det") :
    get_penetration_depth recs i whichrho =
      .ok (recs.map (fun m => m.station), recs.map (stationPer i),
           recs.map (stationDepthVal whichrho i), recs.map (fun m => (m.lat, m.lon)))
    ∧ (∀ (m : MTrec) (h : i < m.Z.freq.length),
        stationPer i m = 1 / m.Z.freq.get ⟨i, h⟩)
    ∧ (∀ m : MTrec, |stationDepthVal zxyStr i m| =
        scale_param * Real.sqrt ((m.Z.resistivity i 0 1 : ℝ) * (stationPer i m : ℝ)))
    ∧ (∀ m : MTrec, |stationDepthVal zyxStr i m| =
        scale_param * Real.sqrt ((m.Z.resistivity i 1 0 : ℝ) * (stationPer i m : ℝ)))
    ∧ (∀ m : MTrec, |stationDepthVal detStr i m| =
        scale_param * Real.sqrt (0.2 * (stationPer i m : ℝ) * (|m.Z.det0 i| : ℚ) * (stationPer i m : ℝ))) := by
  refine ⟨getPD_eval recs i whichrho hne hlen hrho, ?_, ?_, ?_, ?_⟩
  · intro m h
    rw [stationPer, List.getD_eq_getElem?_getD, List.getElem?_eq_getElem h]
    rfl
  · intro m
    rw [stationDepthVal_zxy]
    exact abs_neg_scale_sqrt _
  · intro m
    rw [stationDepthVal_zyx]
    exact abs_neg_scale_sqrt _
  · intro m
    rw [stationDepthVal_det]
    exact abs_neg_scale_sqrt _

/-- Witness for C1 at `station0`, period index 0, selector `zxy`. -/
theorem C1_tensor_extractor_formulas_witness :
    |stationDepthVal zxyStr 0 station0| =
      scale_param * Real.sqrt ((station0.Z.resistivity 0 0 1 : ℝ) * (stationPer 0 station0 : ℝ)) :=
  (C1_tensor_extractor_formulas [station0] 0 (List.cons_ne_nil _ _)
    (by intro m hm; rw [List.mem_singleton] at hm; subst hm; decide)
    zxyStr (Or.inl rfl)).2.2.1 station0

/-- C2 counterexample: the sample point handed to the interpolator for a
station at the bounding-box corner of a height-5 grid is `(4, 1)`, while
the raster compositor populated cell `(3, 1)` — the claim that the two
coincide is false. -/
theorem C2_interp_point_differs_from_raster_cell :
    interpPoint 5 0 0 pixelsize (0, 0) ≠ compositeTarget 5 0 0 pixelsize (0, 0) := by
  simp only [interpPoint, compositeTarget, ne_eq, Prod.mk.injEq, not_and]
  intro h1
  omega

/-- C2 amended: the `(row, column)` point handed to the cubic interpolator
for a station is `(grid_height - iy, ix)`, whose row index exceeds by one
the row `grid_height - iy - 1` of the raster cell the compositor populated
for that station; the columns agree, the rows never do. -/
theorem C2_interp_point_one_row_offset (h : ℤ) (minlat minlon ps : ℚ)
    (latlon : ℚ × ℚ) :
    interpPoint h minlat minlon ps latlon =
      ((compositeTarget h minlat minlon ps latlon).1 + 1,
       (compositeTarget h minlat minlon ps latlon).2) := by
  simp only [interpPoint, compositeTarget, Prod.mk.injEq]
  exact ⟨by ring, trivial⟩

/-- C3: `get_index` returns `(round((lon-minlon)/ps) + offset,
round((lat-minlat)/ps) + offset)` (Python round, half away from zero), and
the inverse transform `(ix - offset) * ps + minlon` recovers the original
coordinate within `ps/2` on both axes. -/
theorem C3_get_index_roundtrip (lat lon minlat minlon ps : ℚ) (offset : ℤ)
    (hps : 0 < ps) :
    get_index lat lon minlat minlon ps offset =
      (pyround ((lon - minlon) / ps) + offset, pyround ((lat - minlat) / ps) + offset)
    ∧ |(((get_index lat lon minlat minlon ps offset).1 - offset : ℤ) : ℚ) * ps + minlon - lon| ≤ ps / 2
    ∧ |(((get_index lat lon minlat minlon ps offset).2 - offset : ℤ) : ℚ) * ps + minlat - lat| ≤ ps / 2 := by
  have hps' : ps ≠ 0 := ne_of_gt hps
  refine ⟨rfl, ?_, ?_⟩
  · have hx : ((get_index lat lon minlat minlon ps offset).1 - offset : ℤ)
        = pyround ((lon - minlon) / ps) := by
      simp [get_index]
    rw [hx]
    have key : (↑(pyround ((lon - minlon) / ps)) : ℚ) * ps + minlon - lon
        = ((pyround ((lon - minlon) / ps) : ℚ) - (lon - minlon) / ps) * ps := by
      rw [sub_mul, div_mul_cancel₀ _ hps']
      ring
    rw [key, abs_mul, abs_of_pos hps]
    calc |(pyround ((lon - minlon) / ps) : ℚ) - (lon - minlon) / ps| * ps
        ≤ (1/2) * ps :=
          mul_le_mul_of_nonneg_right (pyround_abs _) (le_of_lt hps)
      _ = ps / 2 := by ring
  · have hy : ((get_index lat lon minlat minlon ps offset).2 - offset : ℤ)
        = pyround ((lat - minlat) / ps) := by
      simp [get_index]
    rw [hy]
    have key : (↑(pyround ((lat - minlat) / ps)) : ℚ) * ps + minlat - lat
        = ((pyround ((lat - minlat) / ps) : ℚ) - (lat - minlat) / ps) * ps := by
      rw [sub_mul, div_mul_cancel₀ _ hps']
      ring
    rw [key, abs_mul, abs_of_pos hps]
    calc |(pyround ((lat - minlat) / ps) : ℚ) - (lat - minlat) / ps| * ps
        ≤ (1/2) * ps :=
          mul_le_mul_of_nonneg_right (pyround_abs _) (le_of_lt hps)
      _ = ps / 2 := by ring

/-- Witness for C3 at `lon = 3/1000`, pixel size `1/500` (a half-pixel
boundary case, recovered at distance exactly `ps/2`). -/
theorem C3_get_index_roundtrip_witness :
    |(((get_index 0 (3/1000) 0 0 (1/500) 1).1 - 1 : ℤ) : ℚ) * (1/500) + 0 - 3/1000| ≤ (1/500) / 2 :=
  (C3_get_index_roundtrip 0 (3/1000) 0 0 (1/500) 1 (by norm_num)).2.1

/-- C4: the raster compositor starts from the all-sentinel grid (`none`,
the model of `np.nan`, not a numeric zero), each station writes
`abs(depth)` at `(grid_height - iy - 1, ix)` (the cell `compositeTarget`),
and the value of any cell after the loop is the magnitude of the last
sample in iteration order that targeted it — `none` when no sample did.
The raster allocated by the pipeline has shape `(ny + pad, nx + pad)` with
`pad = 4`. -/
theorem C4_raster_compositor_last_write_wins :
    (∀ (h : ℤ) (minlat minlon ps : ℚ) (c : ℤ × ℤ),
      compositeGrid h minlat minlon ps [] c = none)
    ∧ (∀ (h : ℤ) (minlat minlon ps : ℚ) (samples : List ((ℚ × ℚ) × ℝ)) (c : ℤ × ℤ),
        compositeGrid h minlat minlon ps samples c =
          (samples.reverse.find? (fun s =>
            decide (c = compositeTarget h minlat minlon ps s.1))).map (fun s => |s.2|))
    ∧ (∀ (bbox : (ℚ × ℚ) × (ℚ × ℚ)) (pendep : List ℝ) (latlons : List (ℚ × ℚ)),
        (buildPlotData bbox pendep latlons).rows = ⌈(bbox.2.2 - bbox.2.1) / pixelsize⌉ + pad
        ∧ (buildPlotData bbox pendep latlons).cols = ⌈(bbox.1.2 - bbox.1.1) / pixelsize⌉ + pad
        ∧ pad = 4) :=
  ⟨fun _ _ _ _ _ => rfl, compositeGrid_eq,
   fun _ _ _ => ⟨rfl, rfl, rfl⟩⟩

/-- C5: for every non-empty period list, `check_period_values` returns
`True` exactly when every element equals the first with exact equality; it
returns `True` on `[8, 8, 8]` and `False` on `[8, 8.0001, 8]`. -/
theorem C5_check_period_values_iff :
    (∀ (l : List ℚ) (h : l ≠ []),
      (check_period_values l = some true ↔ ∀ x ∈ l, x = l.head h))
    ∧ (∀ l : List ℚ, l ≠ [] →
        check_period_values l = some true ∨ check_period_values l = some false)
    ∧ check_period_values [8, 8, 8] = some true
    ∧ check_period_values [8, 80001/10000, 8] = some false := by
  refine ⟨?_, ?_, by norm_num [check_period_values, checkLoop],
    by norm_num [check_period_values, checkLoop]⟩
  · intro l h
    obtain ⟨p0, rest, rfl⟩ := List.exists_cons_of_ne_nil h
    simpa [check_period_values] using checkLoop_true_iff p0 (p0 :: rest)
  · intro l h
    obtain ⟨p0, rest, rfl⟩ := List.exists_cons_of_ne_nil h
    rcases Bool.eq_false_or_eq_true (checkLoop p0 (p0 :: rest)) with hb | hb
    · left
      simp [check_period_values, hb]
    · right
      simp [check_period_values, hb]

/-- Witness for C5 on the concrete list `[8, 8, 8]`. -/
theorem C5_check_period_values_iff_witness :
    check_period_values [8, 8, 8] = some true :=
  (C5_check_period_values_iff.1 [8, 8, 8] (by decide)).mpr (by decide)

/-- C6: a period mismatch is fatal in the interactive plotting path —
`plot_latlon_depth_profile` raises (error result) and stops — while in the
CSV batch-export path `create_csv_file` keeps the first station, omits
every later station whose period list differs from the first, and
continues with the rest (the output is the filter of the batch by period
agreement with the first station). -/
theorem C6_period_mismatch_policies :
    (∀ (recs : List MTrec) (i : ℕ) (whichrho : String),
      recs ≠ [] → (∀ m ∈ recs, i < m.Z.freq.length) →
      (whichrho = "zxy" ∨ whichrho = "zyx" ∨ whichrho = "det") →
      check_period_values (recs.map (stationPer i)) = some false →
      plot_latlon_depth_profile recs i whichrho = .error .periodMismatch)
    ∧ (∀ (m : MTrec) (rest : List MTrec),
        create_csv_file (m :: rest) =
          ((get_penetration_depths_from_edi_file m).1,
           (get_penetration_depths_from_edi_file m).2.1,
           (get_penetration_depths_from_edi_file m).2.2.2) ::
          (rest.filter (fun m2 => decide ((get_penetration_depths_from_edi_file m2).2.2.1
              = (get_penetration_depths_from_edi_file m).2.2.1))).map
            (fun m2 => ((get_penetration_depths_from_edi_file m2).1,
              (get_penetration_depths_from_edi_file m2).2.1,
              (get_penetration_depths_from_edi_file m2).2.2.2))) := by
  constructor
  · intro recs i whichrho hne hlen hrho hcheck
    simp only [plot_latlon_depth_profile, getPD_eval recs i whichrho hne hlen hrho]
    rw [if_pos hcheck]
  · intro m rest
    rw [create_csv_file, create_csv_rows, create_csv_rows_some]
    simp

/-- Witness for C6: two one-frequency stations with periods 1/2 and 1 make
the plotting path raise the period-mismatch error. -/
theorem C6_period_mismatch_policies_witness :
    plot_latlon_depth_profile [station0, station1] 0 detStr = .error .periodMismatch :=
  C6_period_mismatch_policies.1 [station0, station1] 0 detStr
    (List.cons_ne_nil _ _)
    (by intro m hm; simp at hm; rcases hm with rfl | rfl <;> decide)
    (Or.inr (Or.inr rfl))
    (by norm_num [check_period_values, checkLoop, stationPer, station0, station1])

/-- C7: `get_bounding_box` returns `((min_lon, max_lon), (min_lat, max_lat))`
with `min ≤ max` on both axes, returns `((20,30),(5,15))` on
`[(10,20),(15,25),(5,30)]`, returns a degenerate point box on a single
coordinate, and fails (the `ValueError` of `min()` on an empty sequence,
modelled as `none`) on the empty list. -/
theorem C7_bounding_box :
    (∀ (l : List (ℚ × ℚ)) (lo1 hi1 lo2 hi2 : ℚ),
      get_bounding_box l = some ((lo1, hi1), (lo2, hi2)) → lo1 ≤ hi1 ∧ lo2 ≤ hi2)
    ∧ get_bounding_box [(10, 20), (15, 25), (5, 30)] = some ((20, 30), (5, 15))
    ∧ (∀ p : ℚ × ℚ, get_bounding_box [p] = some ((p.2, p.2), (p.1, p.1)))
    ∧ get_bounding_box [] = none := by
  refine ⟨?_, by decide, fun p => rfl, rfl⟩
  intro l lo1 hi1 lo2 hi2 hbb
  cases l with
  | nil => exact absurd hbb (by simp [get_bounding_box])
  | cons p rest =>
    simp only [get_bounding_box, Option.some.injEq, Prod.mk.injEq] at hbb
    obtain ⟨⟨h1, h2⟩, h3, h4⟩ := hbb
    subst h1
    subst h2
    subst h3
    subst h4
    exact ⟨le_trans (foldl_min_le _ _) (le_foldl_max _ _),
           le_trans (foldl_min_le _ _) (le_foldl_max _ _)⟩

/-- Witness for C7 on the three-point example. -/
theorem C7_bounding_box_witness : (20 : ℚ) ≤ 30 ∧ (5 : ℚ) ≤ 15 :=
  C7_bounding_box.1 [(10, 20), (15, 25), (5, 30)] 20 30 5 15 (by decide)

/-- C8: with any selector outside `{zxy, zyx, det}` and a batch whose first
station has a valid period index (so that the per-station loop reaches the
selector dispatch), `get_penetration_depth` terminates with `sys.exit(100)`
and no result, and 100 is distinct from the usage-error exit status 1 of
the CLI wrapper. -/
theorem C8_unsupported_selector_exit100 (m : MTrec) (rest : List MTrec)
    (i : ℕ) (whichrho : String)
    (hlen : i < m.Z.freq.length)
    (hrho : ¬(whichrho = "zxy" ∨ whichrho = "zyx" ∨ whichrho = "det")) :
    get_penetration_depth (m :: rest) i whichrho = .error (.sysExit 100)
    ∧ (100 : ℕ) ≠ usage_exit_code := by
  push_neg at hrho
  obtain ⟨h1, h2, h3⟩ := hrho
  refine ⟨?_, by decide⟩
  have hm := mapM_error_head (processStation i whichrho) (.sysExit 100) m rest
    (processStation_exit i m whichrho hlen h1 h2 h3)
  simp only [get_penetration_depth, hm]

/-- Witness for C8 with the unsupported selector string `foo`. -/
theorem C8_unsupported_selector_exit100_witness :
    get_penetration_depth [station0] 0 unsupportedSelector = .error (.sysExit 100) :=
  (C8_unsupported_selector_exit100 station0 [] 0 unsupportedSelector (by decide) (by decide)).1

/-- C9 (code bug): the `__main__` block tests `len(sys.argv) < 2`, so only
an invocation with zero positional arguments exits with status 1; with one
positional argument naming an existing directory the code reads
`sys.argv[2]` and dies with `IndexError` instead, and with one argument
that is not a directory it prints a message and falls through with status 0
— contradicting the documented two-argument usage. -/
theorem C9_cli_argcheck_off_by_one :
    cli_main ["prog", "edidir"] (fun _ => true) = .argvError
    ∧ CliOutcome.argvError ≠ .exitWith usage_exit_code
    ∧ cli_main ["prog"] (fun _ => true) = .exitWith usage_exit_code
    ∧ cli_main ["prog", "nodir"] (fun _ => false) = .printedUsage :=
  ⟨rfl, by decide, rfl, rfl⟩

/-- C10: `get_penetration_depth` discards the Boolean returned by
`check_period_values` — with mismatching periods it still returns its
`(stations, periods, pendep, latlons)` tuple normally, and
`plot_gridded_profile`, which never re-runs the check, proceeds to the
bounding box and the grid and returns the plot data. -/
theorem C10_check_result_discarded (recs : List MTrec) (i : ℕ)
    (whichrho : String)
    (hne : recs ≠ []) (hlen : ∀ m ∈ recs, i < m.Z.freq.length)
    (hrho : whichrho = "zxy" ∨ whichrho = "zyx" ∨ whichrho = "det")
    (_hmismatch : check_period_values (recs.map (stationPer i)) = some false) :
    get_penetration_depth recs i whichrho =
      .ok (recs.map (fun m => m.station), recs.map (stationPer i),
           recs.map (stationDepthVal whichrho i), recs.map (fun m => (m.lat, m.lon)))
    ∧ ∃ bbox, get_bounding_box (recs.map (fun m => (m.lat, m.lon))) = some bbox
        ∧ plot_gridded_profile recs i whichrho =
            .ok (buildPlotData bbox (recs.map (stationDepthVal whichrho i))
              (recs.map (fun m => (m.lat, m.lon)))) := by
  have hok := getPD_eval recs i whichrho hne hlen hrho
  refine ⟨hok, ?_⟩
  obtain ⟨r, rs, rfl⟩ := List.exists_cons_of_ne_nil hne
  refine ⟨_, rfl, ?_⟩
  simp only [plot_gridded_profile, hok, List.map_cons, get_bounding_box]

/-- Witness for C10: the mismatched two-station batch still yields a normal
tuple from the extractor. -/
theorem C10_check_result_discarded_witness :
    get_penetration_depth [station0, station1] 0 detStr =
      .ok ([station0, station1].map (fun m => m.station),
           [station0, station1].map (stationPer 0),
           [station0, station1].map (stationDepthVal detStr 0),
           [station0, station1].map (fun m => (m.lat, m.lon))) :=
  (C10_check_result_discarded [station0, station1] 0 detStr
    (List.cons_ne_nil _ _)
    (by intro m hm; simp at hm; rcases hm with rfl | rfl <;> decide)
    (Or.inr (Or.inr rfl))
    (by norm_num [check_period_values, checkLoop, stationPer, station0, station1])).1

end Mtpy
